import Mathlib

/-!
Shallow embedding of `scene-synth/data/rendered.py` (fast-synth).

Grids (torch tensors of shape S×S) are embedded as total functions
`ℕ → ℕ → ℚ`; torch float values are modelled as rationals, which is exact for
every operation this module performs on them (comparisons, additions of 0.5,
`(v+1)/2`).  Torch slice assignment `t[a:b, c:d] = h` copies `h` into `t`;
where the slice would be clipped by the tensor boundary the shapes mismatch and
torch raises, which the embedding renders as `Except.error Err.corruptData`
(the spec's name for this failure).  Python index order `t[x, y]` is kept as
argument order `x y`.
-/

/-- A 2-D grid of rational values, indexed `x y` like the `[x, y]` tensor
indices in the source.  Cells outside the S×S region are never written and
read back as the fill value the source initialises tensors with. -/
abbrev Grid := ℕ → ℕ → ℚ

/-- Failure modes of the module, named as in the spec: `corruptData` is the
torch shape-mismatch raised when a patch overflows the S×S buffer, and
`notImplemented` is the `NotImplementedError` raised for a non-temporary
preview or an unknown ablation value. -/
inductive Err where
  | corruptData : Err
  | notImplemented : Err
deriving DecidableEq, Repr

/-- The state of `RenderedComposite` (`rendered.py`, lines 137-157).  The
source stores the category name list; only its length is observable in this
module (`len(self.categories)`), so the embedding keeps the count
`categories`.  `size` is `floor.shape[0]` from the constructor. -/
structure RenderedComposite where
  size : ℕ
  categories : ℕ
  room_mask : Grid
  wall_mask : Grid
  height_map : Grid
  cat_map : ℕ → Grid
  sin_map : Grid
  cos_map : Grid
  door_map : Grid
  window_map : Grid

/-- Embedding of `RenderedComposite.add_height_map` (lines 193-205):
`update = to_add > self.height_map`; `height_map[update] = to_add[update]`;
`mask` is 0.5 where `to_add > 0`; `cat_map[category] += mask`;
`sin_map[update] = (sin+1)/2`; `cos_map[update] = (cos+1)/2`.
The boolean mask `update` is computed against the height map as it was on
entry, exactly as in the source, so the orientation writes use the pre-call
heights. -/
def RenderedComposite.add_height_map (c : RenderedComposite) (to_add : Grid)
    (category : ℕ) (sin cos : ℚ) : RenderedComposite :=
  { c with
    height_map := fun x y =>
      if c.height_map x y < to_add x y then to_add x y else c.height_map x y,
    cat_map := fun i =>
      if i = category then
        fun x y => c.cat_map i x y + (if 0 < to_add x y then (1 : ℚ)/2 else 0)
      else c.cat_map i,
    sin_map := fun x y =>
      if c.height_map x y < to_add x y then (sin + 1)/2 else c.sin_map x y,
    cos_map := fun x y =>
      if c.height_map x y < to_add x y then (cos + 1)/2 else c.cos_map x y }

/-- Offset computation shared by the constructor's door/window loop
(lines 162-171) and `add_node` (lines 216-225): `math.floor` of the bbox-min
coordinate, clamped to 0 when negative, then forced to 0 when the patch size
on that axis is exactly 256.  `Int.toNat` is the `if xmin < 0: xmin = 0`
clamp. -/
def clamped_offset (bmin : ℚ) (patchSize : ℕ) : ℕ :=
  if patchSize = 256 then 0 else (⌊bmin⌋).toNat

/-- Offset computation of `add_node_obb` (lines 242-243):
`max(0, math.floor(node["bbox_min_obb"][i]))` — note: no 256-sentinel. -/
def obb_offset (bmin : ℚ) : ℕ :=
  (⌊bmin⌋).toNat

/-- The slice assignment `to_add[xmin:xmin+xsize, ymin:ymin+ysize] = h` applied to a zero buffer:
the patch value inside the pasted window, 0 outside. -/
def paste (h : Grid) (xsize ysize xmin ymin : ℕ) : Grid :=
  fun x y =>
    if xmin ≤ x ∧ x < xmin + xsize ∧ ymin ≤ y ∧ y < ymin + ysize then
      h (x - xmin) (y - ymin)
    else 0

/-- The full-size buffer built by the constructor loop and `add_node`: the
local patch pasted at the clamped/sentinel offsets. -/
def to_add_of (h : Grid) (xsize ysize : ℕ) (bx bz : ℚ) : Grid :=
  paste h xsize ysize (clamped_offset bx xsize) (clamped_offset bz ysize)

/-- A furniture record as consumed by `add_node`: the `height_map` patch (with
its shape `xsize × ysize` carried explicitly, since the embedding's grids are
functions), the bbox minimum's x and z components, and the resolved category
index. -/
structure ObjNode where
  height_map : Grid
  xsize : ℕ
  ysize : ℕ
  bbox_min_x : ℚ
  bbox_min_z : ℚ
  category : ℕ

/-- A record as consumed by `add_node_obb`: the oriented-bounding-box patch
and bbox-min fields. -/
structure ObbNode where
  height_map_obb : Grid
  xsize : ℕ
  ysize : ℕ
  bbox_min_obb_x : ℚ
  bbox_min_obb_z : ℚ
  category : ℕ

/-- A door/window record as consumed by the constructor loop: patch, shape,
bbox-min components and the `"door"`/`"window"` tag. -/
structure DWNode where
  height_map : Grid
  xsize : ℕ
  ysize : ℕ
  bbox_min_x : ℚ
  bbox_min_z : ℚ
  category : String

/-- Embedding of `RenderedComposite.add_node` (lines 207-229).  The source extracts
`(sin, cos)` from the record's transform via `get_transformation`, which
divides by the real square root `(a**2 + b**2) ** 0.5`; square roots of
rationals are irrational in general, and the placement and error behaviour do
not depend on the pair, so the embedding takes the extracted orientation pair
as arguments.  The paste raises (shape mismatch) exactly when the offset plus
the patch size overflows the S×S buffer on either axis; the raise happens
before `add_height_map`, so an error leaves the composite untouched, which the
`Except` embedding renders by producing no new state. -/
def RenderedComposite.add_node (c : RenderedComposite) (node : ObjNode)
    (sin cos : ℚ) : Except Err RenderedComposite :=
  if c.size < clamped_offset node.bbox_min_x node.xsize + node.xsize ∨
      c.size < clamped_offset node.bbox_min_z node.ysize + node.ysize then
    .error .corruptData
  else
    .ok (c.add_height_map
      (to_add_of node.height_map node.xsize node.ysize node.bbox_min_x node.bbox_min_z)
      node.category sin cos)

/-- Embedding of `RenderedComposite.add_node_obb` (lines 236-255): same shape as
`add_node` but reads the `height_map_obb`/`bbox_min_obb` fields and clamps the
offsets only to ≥ 0 (no 256-sentinel). -/
def RenderedComposite.add_node_obb (c : RenderedComposite) (node : ObbNode)
    (sin cos : ℚ) : Except Err RenderedComposite :=
  if c.size < obb_offset node.bbox_min_obb_x + node.xsize ∨
      c.size < obb_offset node.bbox_min_obb_z + node.ysize then
    .error .corruptData
  else
    .ok (c.add_height_map
      (paste node.height_map_obb node.xsize node.ysize
        (obb_offset node.bbox_min_obb_x) (obb_offset node.bbox_min_obb_z))
      node.category sin cos)

/-- One iteration of the constructor's door/window loop (lines 158-181):
paste the patch (same offsets as `add_node`, may overflow-raise), update
`height_map` where the pasted buffer exceeds it, force `wall_mask` to 1 where
the pasted buffer is positive, and accumulate the buffer as a 0/0.5 mask into
`door_map` or `window_map` according to the tag. -/
def RenderedComposite.add_dw_node (c : RenderedComposite) (node : DWNode) :
    Except Err RenderedComposite :=
  if c.size < clamped_offset node.bbox_min_x node.xsize + node.xsize ∨
      c.size < clamped_offset node.bbox_min_z node.ysize + node.ysize then
    .error .corruptData
  else
    let to_add : Grid :=
      to_add_of node.height_map node.xsize node.ysize node.bbox_min_x node.bbox_min_z
    let dwmask : Grid := fun x y => if 0 < to_add x y then (1 : ℚ)/2 else 0
    .ok { c with
      height_map := fun x y =>
        if c.height_map x y < to_add x y then to_add x y else c.height_map x y,
      wall_mask := fun x y =>
        if 0 < to_add x y then 1 else c.wall_mask x y,
      door_map :=
        if node.category = "door" then
          fun x y => c.door_map x y + dwmask x y
        else c.door_map,
      window_map :=
        if node.category = "door" then c.window_map
        else fun x y => c.window_map x y + dwmask x y }

/-- The static-geometry part of the `RenderedComposite` constructor
(lines 137-157), before the door/window loop: `room_mask` is `floor + wall`
with nonzero cells forced to 1; `wall_mask` is `wall` with nonzero cells
forced to 0.5; `height_map` is the pointwise max; everything else zero.
`size` is `floor.shape[0]`, carried explicitly since grids are functions,
and `categories` is the length of the category list. -/
def seedComposite (categories size : ℕ) (floor wall : Grid) : RenderedComposite :=
  { size := size,
    categories := categories,
    room_mask := fun x y =>
      if floor x y + wall x y ≠ 0 then 1 else floor x y + wall x y,
    wall_mask := fun x y => if wall x y ≠ 0 then (1 : ℚ)/2 else wall x y,
    height_map := fun x y => max (floor x y) (wall x y),
    cat_map := fun _ _ _ => 0,
    sin_map := fun _ _ => 0,
    cos_map := fun _ _ => 0,
    door_map := fun _ _ => 0,
    window_map := fun _ _ => 0 }

/-- The full `RenderedComposite` constructor: seed from static geometry, then
fold the door/window records through the loop body. -/
def initComposite (categories size : ℕ) (floor wall : Grid)
    (dw : List DWNode) : Except Err RenderedComposite :=
  dw.foldlM RenderedComposite.add_dw_node (seedComposite categories size floor wall)

/-- A composite seeded from an all-zero floor and wall with no door/window
records, used as a concrete builder state in examples. -/
def emptyComposite (categories size : ℕ) : RenderedComposite :=
  seedComposite categories size (fun _ _ => 0) (fun _ _ => 0)

/-- The output tensor: a channel count and the per-channel grid data
(channel, x, y).  Channels at or beyond `channels` read as the zero fill. -/
@[ext]
structure Tensor where
  channels : ℕ
  data : ℕ → ℕ → ℕ → ℚ

/-- The `ablation is None` branch of `get_composite` (lines 318-331):
`len(categories) + num_extra_channels + 8` channels; 0 room, 1 wall,
2 summed category occupancy, 3 height, 4 sin, 5 cos, 6 door, 7 window,
`8+i` the category-`i` map for each `i < categories`, remaining channels
keep the `torch.zeros` fill. -/
def get_composite_full (c : RenderedComposite) (num_extra_channels : ℕ) : Tensor :=
  { channels := c.categories + num_extra_channels + 8,
    data := fun ch x y =>
      if ch = 0 then c.room_mask x y
      else if ch = 1 then c.wall_mask x y
      else if ch = 2 then ∑ i ∈ Finset.range c.categories, c.cat_map i x y
      else if ch = 3 then c.height_map x y
      else if ch = 4 then c.sin_map x y
      else if ch = 5 then c.cos_map x y
      else if ch = 6 then c.door_map x y
      else if ch = 7 then c.window_map x y
      else if ch < 8 + c.categories then c.cat_map (ch - 8) x y
      else 0 }

/-- The `ablation == "depth"` branch (lines 332-334). -/
def get_composite_depth (c : RenderedComposite) (num_extra_channels : ℕ) : Tensor :=
  { channels := 1 + num_extra_channels,
    data := fun ch x y => if ch = 0 then c.height_map x y else 0 }

/-- The `ablation == "basic"` branch (lines 335-342). -/
def get_composite_basic (c : RenderedComposite) (num_extra_channels : ℕ) : Tensor :=
  { channels := 6 + num_extra_channels,
    data := fun ch x y =>
      if ch = 0 then c.room_mask x y
      else if ch = 1 then c.wall_mask x y
      else if ch = 2 then ∑ i ∈ Finset.range c.categories, c.cat_map i x y
      else if ch = 3 then c.height_map x y
      else if ch = 4 then c.sin_map x y
      else if ch = 5 then c.cos_map x y
      else 0 }

/-- Embedding of `RenderedComposite.get_composite` (lines 298-346), dispatching on the
ablation argument; an unrecognised string raises `NotImplementedError`. -/
def RenderedComposite.get_composite (c : RenderedComposite)
    (num_extra_channels : ℕ) (ablation : Option String) : Except Err Tensor :=
  match ablation with
  | Option.none => .ok (get_composite_full c num_extra_channels)
  | Option.some a =>
    if a = "depth" then .ok (get_composite_depth c num_extra_channels)
    else if a = "basic" then .ok (get_composite_basic c num_extra_channels)
    else .error .notImplemented

/-- Embedding of `RenderedComposite.add_and_get_composite` (lines 264-296).  Raises
`NotImplementedError` unless `temporary`.  Every write in the source lands in
the freshly allocated `composite` tensor: torch's `composite[i] = t` copies
`t`'s values into `composite`'s storage, so the subsequent in-place writes
`composite[3][update] = ...`, `composite[4][update] = ...`,
`composite[5][update] = ...` and `composite[8+category] += mask` mutate only
`composite`, never the builder's own grids.  The embedding therefore returns
the (unchanged) builder state paired with the tensor; the state component is
the result of that aliasing analysis, not an assumption.  The source indexes
`composite[8 + category]` unconditionally; for `category` at or beyond the
valid channel range the source would raise, so theorems below restrict
`category` to the category range where that matters.  The tensor built by the
method is named here for reuse in statements. -/
def preview_tensor (c : RenderedComposite) (to_add : Grid) (category : ℕ)
    (sin cos : ℚ) (num_extra_channels : ℕ) : Tensor :=
  { channels := c.categories + num_extra_channels + 8,
    data := fun ch x y =>
      let mask : ℚ := if 0 < to_add x y then (1 : ℚ)/2 else 0
      let base : ℚ :=
        if ch = 0 then c.room_mask x y
        else if ch = 1 then c.wall_mask x y
        else if ch = 2 then
          (∑ i ∈ Finset.range c.categories, c.cat_map i x y) + mask
        else if ch = 3 then
          (if c.height_map x y < to_add x y then to_add x y else c.height_map x y)
        else if ch = 4 then
          (if c.height_map x y < to_add x y then (sin + 1)/2 else c.sin_map x y)
        else if ch = 5 then
          (if c.height_map x y < to_add x y then (cos + 1)/2 else c.cos_map x y)
        else if ch = 6 then c.door_map x y
        else if ch = 7 then c.window_map x y
        else if ch < 8 + c.categories then c.cat_map (ch - 8) x y
        else 0
      if ch = 8 + category then base + mask else base }

/-- The entry point of the preview path: fail unless `temporary`, otherwise
return the unchanged builder state together with the preview tensor. -/
def RenderedComposite.add_and_get_composite (c : RenderedComposite)
    (to_add : Grid) (category : ℕ) (sin cos : ℚ) (num_extra_channels : ℕ)
    (temporary : Bool) : Except Err (RenderedComposite × Tensor) :=
  if temporary = false then .error .notImplemented
  else
    .ok (c, preview_tensor c to_add category sin cos num_extra_channels)

/-- The arguments of one preview (`add_and_get_composite` with
`temporary=True`) call. -/
structure PreviewArgs where
  to_add : Grid
  category : ℕ
  sin : ℚ
  cos : ℚ
  num_extra_channels : ℕ

/-- The builder state after one preview call (discarding the returned
tensor). -/
def previewStep (c : RenderedComposite) (a : PreviewArgs) : RenderedComposite :=
  match c.add_and_get_composite a.to_add a.category a.sin a.cos
      a.num_extra_channels true with
  | .ok p => p.1
  | .error _ => c

/-- The arguments of one `add_height_map` call, for stating properties of
sequences of object additions. -/
structure AddOp where
  patch : Grid
  category : ℕ
  sin : ℚ
  cos : ℚ

/-- Apply one `add_height_map` call described by an `AddOp`. -/
def applyOp (c : RenderedComposite) (op : AddOp) : RenderedComposite :=
  c.add_height_map op.patch op.category op.sin op.cos

/-!
Scene-loader model (`RenderedScene.__init__`, lines 41-118).

The loader's randomness comes from the Python standard library's global
`random` generator, an external collaborator of this repository.  Modelled
from the spec: the generator is a deterministic pseudo-random generator whose
state is set by `random.seed(s)` as a function of `s` alone, and whose
`random.shuffle` permutes a list by the Fisher-Yates procedure, drawing each
swap index from the current state.  A linear congruential generator stands in
for the Mersenne Twister: the claims depend only on the generator being a
deterministic function of its state, not on its distribution.
-/

/-- Modelled from the spec: one step of the stand-in pseudo-random generator
replacing the external `random` module's Mersenne Twister. -/
def lcgNext (s : ℕ) : ℕ :=
  (1103515245 * s + 12345) % 2 ^ 31

/-- Modelled from the spec: `random.seed(s)` puts the external generator into
a state that is a function of the integer seed alone. -/
def seedState (s : ℤ) : ℕ :=
  s.natAbs % 2 ^ 31

/-- Exchange the elements at positions `i` and `j` of a list (the `x[i], x[j]
= x[j], x[i]` swap inside `random.shuffle`); out-of-range positions leave the
list unchanged. -/
def listSwap {α : Type} (l : List α) (i j : ℕ) : List α :=
  match l.get? i, l.get? j with
  | Option.some a, Option.some b => (l.set i b).set j a
  | _, _ => l

/-- Modelled from the spec: the Fisher-Yates loop of `random.shuffle` — for
`i` from `n-1` down to `1`, draw `j` below `i+1` from the generator state and
swap positions `i` and `j`.  The countdown argument is the current `i`. -/
def fyAux {α : Type} (l : List α) (s : ℕ) : ℕ → List α × ℕ
  | 0 => (l, s)
  | Nat.succ i => fyAux (listSwap l (i + 1) (s % (i + 2))) (lcgNext s) i

/-- Modelled from the spec: `random.shuffle` on a list, given the generator
state; returns the permuted list. -/
def pyShuffle {α : Type} (l : List α) (s : ℕ) : List α :=
  (fyAux l s (l.length - 1)).1

/-- The furniture-record list built by the loader loop (lines 104-113): door
and window records are diverted, and the remaining records are appended in
their stored order when `load_objects` is set.  `resolve` is the external
category-resolution collaborator. -/
def furnitureRecords {α : Type} (nodes : List α) (resolve : α → String)
    (load_objects : Bool) : List α :=
  if load_objects then
    nodes.filter fun n => !(resolve n == "door" || resolve n == "window")
  else []

/-- The furniture ordering produced by the loader (lines 67-68 and 115-116):
`if seed: random.seed(seed)` — Python truthiness, so `None` and `0` both skip
the reseed and leave the ambient generator state `g0` — followed by
`if shuffle: random.shuffle(self.object_nodes)`. -/
def loadOrder {α : Type} (nodes : List α) (shuffle : Bool) (seed : Option ℤ)
    (g0 : ℕ) : List α :=
  let g1 := match seed with
    | Option.some s => if s = 0 then g0 else seedState s
    | Option.none => g0
  if shuffle then pyShuffle nodes g1 else nodes

/-!
Concrete inputs used by example and counterexample theorems.
-/

/-- A constant-1 patch function. -/
def onePatch : Grid := fun _ _ => 1

/-- A constant-2 patch function. -/
def twoPatch : Grid := fun _ _ => 2

/-- An obb record whose patch is 256 cells wide with bbox minimum x = 3: the
256-sentinel claim predicts placement at x-offset 0 for it. -/
def obbNode256 : ObbNode :=
  { height_map_obb := onePatch,
    xsize := 256,
    ysize := 1,
    bbox_min_obb_x := 3,
    bbox_min_obb_z := 0,
    category := 0 }

/-- A furniture record whose patch is 256 cells wide with a negative bbox
minimum x. -/
def objNode256 : ObjNode :=
  { height_map := onePatch,
    xsize := 256,
    ysize := 1,
    bbox_min_x := -2,
    bbox_min_z := 0,
    category := 0 }

/-- A door record whose patch is 256 cells tall with a negative bbox minimum
z. -/
def dwNode256 : DWNode :=
  { height_map := onePatch,
    xsize := 1,
    ysize := 256,
    bbox_min_x := 0,
    bbox_min_z := -2,
    category := "door" }

/-- A furniture record whose 5×1 patch overflows a 4×4 grid. -/
def bigNode : ObjNode :=
  { height_map := onePatch,
    xsize := 5,
    ysize := 1,
    bbox_min_x := 0,
    bbox_min_z := 0,
    category := 0 }

/-- A window record whose 1×5 patch overflows a 4×4 grid. -/
def bigDWNode : DWNode :=
  { height_map := onePatch,
    xsize := 1,
    ysize := 5,
    bbox_min_x := 0,
    bbox_min_z := 0,
    category := "window" }

/-- A builder over one category whose height map is 1 everywhere, obtained by
adding a constant-1 patch to an empty 4×4 composite; used to exhibit an exact
height tie. -/
def tieBase : RenderedComposite :=
  (emptyComposite 1 4).add_height_map onePatch 0 0 1

/-!
Theorems.
-/

/-- Pointwise description of one `add_height_map` summand update, shared by
several category-channel arguments below: updating one layer of a family and
summing over a range that contains it adds the increment once. -/
theorem sum_cat_update (C category : ℕ) (hcat : category < C) (f : ℕ → ℚ)
    (m : ℚ) :
    ∑ i ∈ Finset.range C, (if i = category then f i + m else f i) =
      (∑ i ∈ Finset.range C, f i) + m := by
  have h1 : ∀ i ∈ Finset.range C,
      (if i = category then f i + m else f i) =
        f i + (if i = category then m else 0) := by
    intro i _
    split_ifs <;> simp
  rw [Finset.sum_congr rfl h1, Finset.sum_add_distrib, Finset.sum_ite_eq']
  rw [if_pos (Finset.mem_range.mpr hcat)]

/-- C1: over any sequence of `add_height_map` calls the height map at every
cell is non-decreasing, and a single call either leaves a cell's height
unchanged or replaces it with the patch value because the patch strictly
exceeds the incumbent height there. -/
theorem height_wins_monotone (c : RenderedComposite) (ops : List AddOp)
    (op : AddOp) (x y : ℕ) :
    c.height_map x y ≤ (List.foldl applyOp c ops).height_map x y ∧
    ((applyOp c op).height_map x y = c.height_map x y ∨
      (c.height_map x y < op.patch x y ∧
        (applyOp c op).height_map x y = op.patch x y)) := by
  constructor
  · induction ops generalizing c with
    | nil => exact le_refl _
    | cons a tl ih =>
      refine le_trans ?_ (ih (applyOp c a))
      show c.height_map x y ≤
        (if c.height_map x y < a.patch x y then a.patch x y else c.height_map x y)
      split
      · exact le_of_lt (by assumption)
      · exact le_refl _
  · show (if c.height_map x y < op.patch x y then op.patch x y
        else c.height_map x y) = c.height_map x y ∨
      (c.height_map x y < op.patch x y ∧
        (if c.height_map x y < op.patch x y then op.patch x y
          else c.height_map x y) = op.patch x y)
    split
    · exact Or.inr ⟨by assumption, rfl⟩
    · exact Or.inl rfl

/-- C3: preview calls (`add_and_get_composite` with `temporary=True`) leave
the builder state unchanged — any fold of preview steps is the identity on
the state — so a subsequent `get_composite` returns exactly what it would
have returned without the previews. -/
theorem preview_non_mutation (c : RenderedComposite) (l : List PreviewArgs)
    (k : ℕ) :
    List.foldl previewStep c l = c ∧
    (List.foldl previewStep c l).get_composite k Option.none =
      c.get_composite k Option.none := by
  have h : List.foldl previewStep c l = c := by
    induction l generalizing c with
    | nil => rfl
    | cons a tl ih => exact ih c
  exact ⟨h, by rw [h]⟩

/-- C7: `cat_map` accumulates: one `add_height_map` call adds 0.5 to the
object's category layer exactly at cells where the patch is positive, leaves
every other layer unchanged, and two calls with the same category compound
their increments — with no reference to the height comparison. -/
theorem cat_accumulation (c : RenderedComposite) (t1 t2 : Grid)
    (category j : ℕ) (s1 co1 s2 co2 : ℚ) (x y : ℕ)
    (hcat : category < c.categories) (hj : j ≠ category) :
    (c.add_height_map t1 category s1 co1).cat_map category x y =
      c.cat_map category x y + (if 0 < t1 x y then (1 : ℚ)/2 else 0) ∧
    (c.add_height_map t1 category s1 co1).cat_map j x y = c.cat_map j x y ∧
    ((c.add_height_map t1 category s1 co1).add_height_map t2 category s2 co2).cat_map
        category x y =
      c.cat_map category x y + (if 0 < t1 x y then (1 : ℚ)/2 else 0) +
        (if 0 < t2 x y then (1 : ℚ)/2 else 0) := by
  refine ⟨?_, ?_, ?_⟩ <;>
    simp [RenderedComposite.add_height_map, hj]

/-- C7 witness: adding a constant-1 patch of category 0 twice to an empty
two-category composite drives that category's layer to 0 + 0.5 + 0.5 at a
cell, while category 1 is untouched. -/
theorem cat_accumulation_witness :
    0 < (emptyComposite 2 4).categories ∧ (1 : ℕ) ≠ 0 ∧
    (((emptyComposite 2 4).add_height_map onePatch 0 0 1).cat_map 0 0 0 =
      (emptyComposite 2 4).cat_map 0 0 0 +
        (if 0 < onePatch 0 0 then (1 : ℚ)/2 else 0) ∧
    ((emptyComposite 2 4).add_height_map onePatch 0 0 1).cat_map 1 0 0 =
      (emptyComposite 2 4).cat_map 1 0 0 ∧
    (((emptyComposite 2 4).add_height_map onePatch 0 0 1).add_height_map
        onePatch 0 0 1).cat_map 0 0 0 =
      (emptyComposite 2 4).cat_map 0 0 0 +
        (if 0 < onePatch 0 0 then (1 : ℚ)/2 else 0) +
        (if 0 < onePatch 0 0 then (1 : ℚ)/2 else 0)) :=
  ⟨by decide, by decide,
    cat_accumulation (emptyComposite 2 4) onePatch onePatch 0 1 0 1 0 1 0 0
      (by decide) (by decide)⟩

/-- C10: when the patch value exactly equals the incumbent height at a cell,
an `add_height_map` call leaves the height, sin and cos maps unchanged at
that cell (the comparison is strict), while the category layer still
accumulates 0.5 there when the patch value is positive. -/
theorem equal_height_tie (c : RenderedComposite) (t : Grid) (category : ℕ)
    (s co : ℚ) (x y : ℕ) (hcat : category < c.categories)
    (heq : t x y = c.height_map x y) :
    (c.add_height_map t category s co).height_map x y = c.height_map x y ∧
    (c.add_height_map t category s co).sin_map x y = c.sin_map x y ∧
    (c.add_height_map t category s co).cos_map x y = c.cos_map x y ∧
    (c.add_height_map t category s co).cat_map category x y =
      c.cat_map category x y + (if 0 < t x y then (1 : ℚ)/2 else 0) := by
  have hnot : ¬ c.height_map x y < t x y := by
    rw [heq]
    exact lt_irrefl _
  refine ⟨?_, ?_, ?_, ?_⟩ <;>
    simp [RenderedComposite.add_height_map, hnot]

/-- C10 witness: on a builder whose height map is 1 everywhere, re-adding a
constant-1 patch leaves height and orientation at a cell unchanged while the
category layer still gains 0.5 there. -/
theorem equal_height_tie_witness :
    0 < tieBase.categories ∧ onePatch 0 0 = tieBase.height_map 0 0 ∧
    ((tieBase.add_height_map onePatch 0 0 1).height_map 0 0 =
      tieBase.height_map 0 0 ∧
    (tieBase.add_height_map onePatch 0 0 1).sin_map 0 0 = tieBase.sin_map 0 0 ∧
    (tieBase.add_height_map onePatch 0 0 1).cos_map 0 0 = tieBase.cos_map 0 0 ∧
    (tieBase.add_height_map onePatch 0 0 1).cat_map 0 0 0 =
      tieBase.cat_map 0 0 0 + (if 0 < onePatch 0 0 then (1 : ℚ)/2 else 0)) :=
  ⟨by decide, by decide,
    equal_height_tie tieBase onePatch 0 0 1 0 0 (by decide) (by decide)⟩

/-- C9: when the clamped offset plus the patch size overflows the S×S buffer
on either axis, `add_node` fails with the corrupt-data error, and so does the
constructor's door/window pasting step; the error is produced before any
state update, so the failed placement leaves the composite untouched. -/
theorem patch_overflow_error (c : RenderedComposite) (node : ObjNode)
    (s co : ℚ) (dwn : DWNode)
    (hn : c.size < clamped_offset node.bbox_min_x node.xsize + node.xsize ∨
      c.size < clamped_offset node.bbox_min_z node.ysize + node.ysize)
    (hd : c.size < clamped_offset dwn.bbox_min_x dwn.xsize + dwn.xsize ∨
      c.size < clamped_offset dwn.bbox_min_z dwn.ysize + dwn.ysize) :
    c.add_node node s co = Except.error Err.corruptData ∧
    c.add_dw_node dwn = Except.error Err.corruptData := by
  constructor
  · unfold RenderedComposite.add_node
    rw [if_pos hn]
  · unfold RenderedComposite.add_dw_node
    rw [if_pos hd]

/-- C9 witness: a 5×1 patch at offset 0 overflows a 4×4 grid, so both the
furniture and the door/window placement of it fail with the corrupt-data
error. -/
theorem patch_overflow_error_witness :
    ((emptyComposite 1 4).size <
        clamped_offset bigNode.bbox_min_x bigNode.xsize + bigNode.xsize ∨
      (emptyComposite 1 4).size <
        clamped_offset bigNode.bbox_min_z bigNode.ysize + bigNode.ysize) ∧
    ((emptyComposite 1 4).size <
        clamped_offset bigDWNode.bbox_min_x bigDWNode.xsize + bigDWNode.xsize ∨
      (emptyComposite 1 4).size <
        clamped_offset bigDWNode.bbox_min_z bigDWNode.ysize + bigDWNode.ysize) ∧
    ((emptyComposite 1 4).add_node bigNode 0 1 = Except.error Err.corruptData ∧
      (emptyComposite 1 4).add_dw_node bigDWNode = Except.error Err.corruptData) :=
  ⟨by decide, by decide,
    patch_overflow_error (emptyComposite 1 4) bigNode 0 1 bigDWNode
      (by decide) (by decide)⟩

/-- C2: the orientation maps are written exactly with the height winner — a
call whose patch strictly exceeds the incumbent height at a cell writes its
encoded orientation there, and for two overlapping objects with the taller
patch strictly above both the shorter patch and the incumbent height, the
taller object's encoded orientation ends up in `sin_map`/`cos_map` at that
cell in both add orders, the shorter one never overwriting it. -/
theorem orientation_consistency (c : RenderedComposite) (tA tB : Grid)
    (catA catB : ℕ) (sA cA sB cB : ℚ) (x y : ℕ)
    (hcatA : catA < c.categories) (hcatB : catB < c.categories)
    (hAB : tB x y < tA x y) (hA : c.height_map x y < tA x y) :
    (c.add_height_map tA catA sA cA).sin_map x y = (sA + 1)/2 ∧
    (c.add_height_map tA catA sA cA).cos_map x y = (cA + 1)/2 ∧
    ((c.add_height_map tA catA sA cA).add_height_map tB catB sB cB).sin_map x y =
      (sA + 1)/2 ∧
    ((c.add_height_map tA catA sA cA).add_height_map tB catB sB cB).cos_map x y =
      (cA + 1)/2 ∧
    ((c.add_height_map tB catB sB cB).add_height_map tA catA sA cA).sin_map x y =
      (sA + 1)/2 ∧
    ((c.add_height_map tB catB sB cB).add_height_map tA catA sA cA).cos_map x y =
      (cA + 1)/2 := by
  refine ⟨?_, ?_, ?_, ?_, ?_, ?_⟩ <;>
    · dsimp only [RenderedComposite.add_height_map]
      split_ifs <;> first | rfl | linarith

/-- C2 witness: on an empty two-category composite, a height-2 patch with
orientation pair (0, 1) beats a height-1 patch with orientation pair (1, 0)
at a cell in both add orders. -/
theorem orientation_consistency_witness :
    0 < (emptyComposite 2 4).categories ∧ 1 < (emptyComposite 2 4).categories ∧
    onePatch 0 0 < twoPatch 0 0 ∧
    (emptyComposite 2 4).height_map 0 0 < twoPatch 0 0 ∧
    (((emptyComposite 2 4).add_height_map twoPatch 0 0 1).sin_map 0 0 =
        ((0 : ℚ) + 1)/2 ∧
      ((emptyComposite 2 4).add_height_map twoPatch 0 0 1).cos_map 0 0 =
        ((1 : ℚ) + 1)/2 ∧
      (((emptyComposite 2 4).add_height_map twoPatch 0 0 1).add_height_map
          onePatch 1 1 0).sin_map 0 0 = ((0 : ℚ) + 1)/2 ∧
      (((emptyComposite 2 4).add_height_map twoPatch 0 0 1).add_height_map
          onePatch 1 1 0).cos_map 0 0 = ((1 : ℚ) + 1)/2 ∧
      (((emptyComposite 2 4).add_height_map onePatch 1 1 0).add_height_map
          twoPatch 0 0 1).sin_map 0 0 = ((0 : ℚ) + 1)/2 ∧
      (((emptyComposite 2 4).add_height_map onePatch 1 1 0).add_height_map
          twoPatch 0 0 1).cos_map 0 0 = ((1 : ℚ) + 1)/2) :=
  ⟨by decide, by decide, by decide, by decide,
    orientation_consistency (emptyComposite 2 4) twoPatch onePatch 0 1 0 1 1 0
      0 0 (by decide) (by decide) (by decide) (by decide)⟩

set_option maxHeartbeats 1000000 in
/-- C5: `get_composite` with no ablation returns the full tensor with exactly
`8 + C + k` channels, whose channels are, in order: room mask, wall mask,
summed category occupancy, height, sin, cos, door, window, then one channel
per category in order, and zero-filled extra channels. -/
theorem channel_layout (c : RenderedComposite) (k x y i j : ℕ)
    (hi : i < c.categories) (hj1 : 8 + c.categories ≤ j)
    (hj2 : j < 8 + c.categories + k) :
    c.get_composite k Option.none = Except.ok (get_composite_full c k) ∧
    (get_composite_full c k).channels = 8 + c.categories + k ∧
    (get_composite_full c k).data 0 x y = c.room_mask x y ∧
    (get_composite_full c k).data 1 x y = c.wall_mask x y ∧
    (get_composite_full c k).data 2 x y =
      ∑ m ∈ Finset.range c.categories, c.cat_map m x y ∧
    (get_composite_full c k).data 3 x y = c.height_map x y ∧
    (get_composite_full c k).data 4 x y = c.sin_map x y ∧
    (get_composite_full c k).data 5 x y = c.cos_map x y ∧
    (get_composite_full c k).data 6 x y = c.door_map x y ∧
    (get_composite_full c k).data 7 x y = c.window_map x y ∧
    (get_composite_full c k).data (8 + i) x y = c.cat_map i x y ∧
    (get_composite_full c k).data j x y = 0 := by
  refine ⟨rfl, by dsimp only [get_composite_full]; omega,
    rfl, rfl, rfl, rfl, rfl, rfl, rfl, rfl, ?_, ?_⟩
  · dsimp only [get_composite_full]
    split_ifs <;>
      first
        | (exfalso; omega)
        | rw [Nat.add_sub_cancel_left]
  · dsimp only [get_composite_full]
    split_ifs <;>
      first
        | rfl
        | (exfalso; omega)

/-- C5 witness: on an empty one-category composite with one extra channel,
the full composite has 10 channels, channel 8 is the category-0 map and
channel 9 is zero-filled. -/
theorem channel_layout_witness :
    0 < (emptyComposite 1 4).categories ∧
    8 + (emptyComposite 1 4).categories ≤ 9 ∧
    9 < 8 + (emptyComposite 1 4).categories + 1 ∧
    ((emptyComposite 1 4).get_composite 1 Option.none =
        Except.ok (get_composite_full (emptyComposite 1 4) 1) ∧
      (get_composite_full (emptyComposite 1 4) 1).channels =
        8 + (emptyComposite 1 4).categories + 1 ∧
      (get_composite_full (emptyComposite 1 4) 1).data 0 0 0 =
        (emptyComposite 1 4).room_mask 0 0 ∧
      (get_composite_full (emptyComposite 1 4) 1).data 1 0 0 =
        (emptyComposite 1 4).wall_mask 0 0 ∧
      (get_composite_full (emptyComposite 1 4) 1).data 2 0 0 =
        ∑ m ∈ Finset.range (emptyComposite 1 4).categories,
          (emptyComposite 1 4).cat_map m 0 0 ∧
      (get_composite_full (emptyComposite 1 4) 1).data 3 0 0 =
        (emptyComposite 1 4).height_map 0 0 ∧
      (get_composite_full (emptyComposite 1 4) 1).data 4 0 0 =
        (emptyComposite 1 4).sin_map 0 0 ∧
      (get_composite_full (emptyComposite 1 4) 1).data 5 0 0 =
        (emptyComposite 1 4).cos_map 0 0 ∧
      (get_composite_full (emptyComposite 1 4) 1).data 6 0 0 =
        (emptyComposite 1 4).door_map 0 0 ∧
      (get_composite_full (emptyComposite 1 4) 1).data 7 0 0 =
        (emptyComposite 1 4).window_map 0 0 ∧
      (get_composite_full (emptyComposite 1 4) 1).data (8 + 0) 0 0 =
        (emptyComposite 1 4).cat_map 0 0 0 ∧
      (get_composite_full (emptyComposite 1 4) 1).data 9 0 0 = 0) :=
  ⟨by decide, by decide, by decide,
    channel_layout (emptyComposite 1 4) 1 0 0 0 9
      (by decide) (by decide) (by decide)⟩

/-- C6 counterexample: `add_node_obb` has no 256-sentinel.  A 256-wide obb
patch with bbox minimum x = 3 on a 300×300 grid is pasted at x-offset 3, not
0: the resulting height map is 0 at x = 0 and 1 at x = 3, whereas placement
at offset 0 would put the patch value 1 at x = 0. -/
theorem sentinel256_obb_counterexample :
    obbNode256.xsize = 256 ∧ obb_offset obbNode256.bbox_min_obb_x ≠ 0 ∧
    ((emptyComposite 1 300).add_node_obb obbNode256 0 1).map
        (fun c => (c.height_map 0 0, c.height_map 3 0)) =
      Except.ok ((0 : ℚ), (1 : ℚ)) :=
  ⟨rfl, by decide, rfl⟩

/-- C6 (amended): the 256-sentinel holds for every placement that goes
through the constructor's door/window pasting or `add_node` — a patch whose
width (resp. height) is exactly 256 is pasted at offset 0 on that axis
whatever its bbox minimum, so those placements are invariant under the bbox
coordinate on that axis — but not for `add_node_obb`, whose offsets are only
clamped to be non-negative. -/
theorem sentinel256_amended (h1 h2 : Grid) (xs1 ys1 xs2 ys2 : ℕ)
    (bx1 bz1 bx2 bz2 : ℚ) (c : RenderedComposite) (node : ObjNode)
    (dwn : DWNode) (s co b : ℚ)
    (hx : xs1 = 256) (hy : ys2 = 256) (hnx : node.xsize = 256)
    (hdy : dwn.ysize = 256) :
    to_add_of h1 xs1 ys1 bx1 bz1 = paste h1 xs1 ys1 0 (clamped_offset bz1 ys1) ∧
    to_add_of h2 xs2 ys2 bx2 bz2 = paste h2 xs2 ys2 (clamped_offset bx2 xs2) 0 ∧
    c.add_node node s co = c.add_node { node with bbox_min_x := b } s co ∧
    c.add_dw_node dwn = c.add_dw_node { dwn with bbox_min_z := b } := by
  refine ⟨?_, ?_, ?_, ?_⟩
  · subst hx
    simp [to_add_of, clamped_offset]
  · subst hy
    simp [to_add_of, clamped_offset]
  · simp [RenderedComposite.add_node, to_add_of, clamped_offset, hnx]
  · simp [RenderedComposite.add_dw_node, to_add_of, clamped_offset, hdy]

/-- C6 (amended) witness: concrete 256-sized patches with nonzero or negative
bbox minima are pasted at offset 0 on the 256 axis by the `add_node` and
door/window paths. -/
theorem sentinel256_amended_witness :
    (256 : ℕ) = 256 ∧ objNode256.xsize = 256 ∧ dwNode256.ysize = 256 ∧
    (to_add_of onePatch 256 1 3 0 = paste onePatch 256 1 0 (clamped_offset 0 1) ∧
      to_add_of onePatch 1 256 0 (-2) =
        paste onePatch 1 256 (clamped_offset 0 1) 0 ∧
      (emptyComposite 1 300).add_node objNode256 0 1 =
        (emptyComposite 1 300).add_node { objNode256 with bbox_min_x := 7 } 0 1 ∧
      (emptyComposite 1 300).add_dw_node dwNode256 =
        (emptyComposite 1 300).add_dw_node
          { dwNode256 with bbox_min_z := 7 }) :=
  ⟨rfl, rfl, rfl,
    sentinel256_amended onePatch onePatch 256 1 1 256 3 0 0 (-2)
      (emptyComposite 1 300) objNode256 dwNode256 0 1 7 rfl rfl rfl rfl⟩

/-- C8 counterexample: the loader reseeds with `if seed:`, which is Python
truthiness, so the integer seed 0 is treated like `None` and the shuffle runs
on the ambient generator state: two loads of the same two-record list with
seed 0 but different ambient states produce different furniture orderings. -/
theorem loader_seed_zero_counterexample :
    loadOrder [0, 1] true (Option.some 0) 0 ≠
      loadOrder [0, 1] true (Option.some 0) 1 := by
  decide

/-- C8 (amended): for every nonzero fixed seed, the furniture ordering is a
deterministic function of the stored record list and the seed — two loads
with the same inputs and seed agree whatever the ambient generator state —
and a load with `shuffle=false` returns the furniture records in their stored
order. -/
theorem loader_determinism (α : Type) (nodes : List α) (resolve : α → String)
    (lo : Bool) (s : ℤ) (g g2 g3 : ℕ) (seed3 : Option ℤ)
    (hs : s ≠ 0) :
    loadOrder (furnitureRecords nodes resolve lo) true (Option.some s) g =
      loadOrder (furnitureRecords nodes resolve lo) true (Option.some s) g2 ∧
    loadOrder (furnitureRecords nodes resolve lo) false seed3 g3 =
      furnitureRecords nodes resolve lo := by
  constructor
  · simp [loadOrder, hs]
  · simp [loadOrder]

/-- C8 (amended) witness: with seed 1 the ordering of a two-record furniture
list is the same from ambient states 0 and 5, and an unshuffled load keeps
the stored order. -/
theorem loader_determinism_witness :
    (1 : ℤ) ≠ 0 ∧
    (loadOrder (furnitureRecords [0, 1] (fun _ => "chair") true) true
          (Option.some 1) 0 =
        loadOrder (furnitureRecords [0, 1] (fun _ => "chair") true) true
          (Option.some 1) 5 ∧
      loadOrder (furnitureRecords [0, 1] (fun _ => "chair") true) false
          Option.none 7 =
        furnitureRecords [0, 1] (fun _ => "chair") true) :=
  ⟨by decide,
    loader_determinism ℕ [0, 1] (fun _ => "chair") true 1 0 5 7 Option.none
      (by decide)⟩

/-- C4: the tensor returned by a preview (`add_and_get_composite` with
`temporary=True`) equals the tensor obtained by applying `add_height_map`
with the same patch, category and orientation to the builder and then
calling `get_composite` with the same number of extra channels and no
ablation. -/
theorem preview_equivalence (c : RenderedComposite) (t : Grid)
    (category : ℕ) (s co : ℚ) (k : ℕ) (hcat : category < c.categories) :
    (c.add_and_get_composite t category s co k true).map Prod.snd =
      (c.add_height_map t category s co).get_composite k Option.none := by
  have key : preview_tensor c t category s co k =
      get_composite_full (c.add_height_map t category s co) k := by
    refine Tensor.ext rfl ?_
    funext ch x y
    dsimp only [preview_tensor, get_composite_full, RenderedComposite.add_height_map]
    simp only [ite_apply]
    rcases Nat.lt_or_ge ch 8 with h8 | h8
    · rw [if_neg (show ¬ ch = 8 + category by omega)]
      interval_cases ch
      · rfl
      · rfl
      · norm_num
        rw [sum_cat_update c.categories category hcat]
      · rfl
      · rfl
      · rfl
      · rfl
      · rfl
    · have e0 : ¬ ch = 0 := by omega
      have e1 : ¬ ch = 1 := by omega
      have e2 : ¬ ch = 2 := by omega
      have e3 : ¬ ch = 3 := by omega
      have e4 : ¬ ch = 4 := by omega
      have e5 : ¬ ch = 5 := by omega
      have e6 : ¬ ch = 6 := by omega
      have e7 : ¬ ch = 7 := by omega
      simp only [if_neg e0, if_neg e1, if_neg e2, if_neg e3, if_neg e4,
        if_neg e5, if_neg e6, if_neg e7]
      by_cases hin : ch < 8 + c.categories
      · simp only [if_pos hin]
        by_cases heq : ch = 8 + category
        · have h2 : ch - 8 = category := by omega
          simp only [if_pos heq, if_pos h2]
        · have h2 : ¬ ch - 8 = category := by omega
          simp only [if_neg heq, if_neg h2]
      · have hne : ¬ ch = 8 + category := by omega
        simp only [if_neg hin, if_neg hne]
  show Except.ok (preview_tensor c t category s co k) =
    Except.ok (get_composite_full (c.add_height_map t category s co) k)
  exact congrArg Except.ok key

/-- C4 witness: a concrete preview on an empty one-category composite agrees
with mutate-then-get. -/
theorem preview_equivalence_witness :
    0 < (emptyComposite 1 4).categories ∧
    ((emptyComposite 1 4).add_and_get_composite onePatch 0 0 1 1 true).map
        Prod.snd =
      ((emptyComposite 1 4).add_height_map onePatch 0 0 1).get_composite 1
        Option.none :=
  ⟨by decide,
    preview_equivalence (emptyComposite 1 4) onePatch 0 0 1 1 (by decide)⟩
